import Mathlib

/-!
Shallow embedding of the two serverless checkout handlers of this
repository:

* `handler1` — `src/api/create-session.js` (Tabby-only variant);
* `handler2` — `src/unnamed/part_000` (unified Tabby + Stripe + GHL CRM
  variant).

JavaScript strings are `String`; absent JSON fields are `Option`; JS
truthiness of strings is `truthy` (only `""` and absence are falsy);
`parseFloat` is modelled over `ℚ` with `none` standing for `NaN`; the
network is an oracle (`World`) supplying the result of each outbound
`fetch`/SDK call, a thrown exception being `Except.error`; the handlers
additionally record the outbound calls they issue, in order, so that
"no outbound call is made" is a statement about the recorded trace.
-/

/-- JS truthiness of a string: only the empty string is falsy. -/
def truthy (s : String) : Bool := s ≠ ""

/-- JS truthiness of a possibly-absent string (`undefined`/`null` falsy). -/
def optTruthy : Option String → Bool
  | none => false
  | some s => truthy s

/-- JS `a || b` on possibly-absent strings. -/
def jsOrOpt (a b : Option String) : Option String :=
  if optTruthy a then a else b

/-- JS `a || d` where `d` is a string literal fallback. -/
def jsOrStr (a : Option String) (d : String) : String :=
  match a with
  | some s => if truthy s then s else d
  | none => d

/-- Longest prefix of decimal digits of a character list, and the rest. -/
def takeDigits : List Char → List Char × List Char
  | [] => ([], [])
  | c :: cs =>
    if c.isDigit then
      let (d, r) := takeDigits cs
      (c :: d, r)
    else ([], c :: cs)

/-- Numeric value of a list of decimal digits. -/
def natOfDigits (l : List Char) : Nat :=
  l.foldl (fun a c => a * 10 + (c.toNat - '0'.toNat)) 0

/-- JS `parseFloat` on the decimal-string forms this codebase feeds it
(optional sign, integer digits, optional fractional digits; the longest
valid prefix is parsed, as in JS). `none` models `NaN` — in particular a
string with no leading numeric prefix, such as `"abc"`, yields `none`.
The value of `±I.F` with `k` fractional digits is the rational
`±(I·10^k + F) / 10^k`, built with `mkRat` so the kernel can evaluate
it. -/
def jsParseFloat (s : String) : Option ℚ :=
  let cs := s.data.dropWhile (fun c => c = ' ' ∨ c = '\t' ∨ c = '\n' ∨ c = '\r')
  let signed : Int × List Char :=
    match cs with
    | '-' :: r => (-1, r)
    | '+' :: r => (1, r)
    | r => (1, r)
  let (ints, rest) := takeDigits signed.2
  let fracs : List Char :=
    match rest with
    | '.' :: r => (takeDigits r).1
    | _ => []
  if ints.isEmpty ∧ fracs.isEmpty then none
  else
    some (mkRat (signed.1 * natOfDigits (ints ++ fracs)) (10 ^ fracs.length))

/-- JS `x <= 0` where `x` may be `NaN`: every comparison with `NaN` is
false, so `none` yields `false`. -/
def jsLeZeroOpt : Option ℚ → Bool
  | none => false
  | some q => q ≤ 0

/-- JS `Math.round(q * 100)` (round half toward positive infinity),
computed on the numerator and denominator with Euclidean integer
division so the kernel can evaluate it; `jsMathRound100_eq` below proves
it equal to `⌊q * 100 + 1/2⌋`. -/
def jsMathRound100 (q : ℚ) : Int :=
  (200 * q.num + (q.den : Int)) / (2 * (q.den : Int))

/-- The JSON body of the inbound POST request; every field may be absent. -/
structure Body where
  payment_method : Option String := none
  name : Option String := none
  email : Option String := none
  phone : Option String := none
  amount : Option String := none
  description : Option String := none
  reference_id : Option String := none
  item_title : Option String := none
  item_category : Option String := none
  address : Option String := none
  city : Option String := none
  zip : Option String := none
  country : Option String := none
deriving Repr, DecidableEq

/-- The inbound HTTP request. -/
structure Request where
  method : String
  body : Body
deriving Repr, DecidableEq

/-- Environment configuration; an unset variable is the empty string
(JS `!x` does not distinguish `undefined` from `""`). -/
structure Config where
  TABBY_SECRET_KEY : String := ""
  TABBY_PUBLIC_KEY : String := ""
  TABBY_MERCHANT_CODE : String := ""
  STRIPE_SECRET_KEY : String := ""
  GHL_API_KEY : String := ""
  GHL_LOCATION_ID : String := ""
deriving Repr, DecidableEq

/-- One element of `configuration.available_products.installments`. -/
structure Installment where
  web_url : Option String := none
deriving Repr, DecidableEq

/-- One element of `configuration.products.installments`. -/
structure ProductInst where
  rejection_reason : Option String := none
deriving Repr, DecidableEq

/-- The JSON body Tabby's checkout endpoint answers with, restricted to
the fields the handlers read. -/
structure TabbyData where
  status : Option String := none
  id : Option String := none
  payment_id : Option String := none
  installments : List Installment := []
  products_installments : List ProductInst := []
deriving Repr, DecidableEq

/-- The GHL contact-upsert response, restricted to what the handler
reads: `contact_id` is `ghlData.contact.id` when `ghlData.contact` and a
contact id are present. -/
structure GhlUpsertData where
  contact_id : Option String := none
deriving Repr, DecidableEq

/-- A created Stripe Checkout Session. -/
structure StripeSession where
  id : String
  url : String
deriving Repr, DecidableEq

/-- Oracle for the outside world: the result of each outbound call the
handler may issue (`Except.error` models a thrown exception / network
failure), and the clock read by `Date.now()`. -/
structure World where
  ghlUpsert : Except String GhlUpsertData
  stripeCreate : Except String StripeSession
  tabbyCreate : Except String TabbyData
  ghlNote : Except String Unit
  ghlTag : Except String Unit
  now : Nat
deriving Repr

/-- An outbound call, as recorded in order by the handler. -/
inductive Call where
  | ghlUpsert
  | stripeCreate (unit_amount : Option Int)
  | tabbyCreate
  | ghlNote (note : String)
  | ghlTag (tags : List String)
deriving Repr, DecidableEq

/-- Is a recorded call the Stripe session creation? -/
def Call.isStripe : Call → Bool
  | .stripeCreate _ => true
  | _ => false

/-- Is a recorded call the Tabby session creation? -/
def Call.isTabby : Call → Bool
  | .tabbyCreate => true
  | _ => false

/-- Is a recorded call the CRM note post? -/
def Call.isNote : Call → Bool
  | .ghlNote _ => true
  | _ => false

/-- Is a recorded call the CRM tag update? -/
def Call.isTag : Call → Bool
  | .ghlTag _ => true
  | _ => false

/-- Is a recorded call the CRM contact upsert? -/
def Call.isUpsert : Call → Bool
  | .ghlUpsert => true
  | _ => false

/-- Did the Tabby call succeed with `status: "created"`? -/
def tabbyCreatedOk (e : Except String TabbyData) : Bool :=
  match e with
  | .ok td => td.status = some "created"
  | .error _ => false

/-- The JSON body of the handler's response, restricted to the keys the
handlers emit; an absent key is `none` (`ghl_contact_id: null` is also
`none`, as the claims treat absent and null alike). -/
structure RespBody where
  success : Option Bool := none
  redirect_url : Option String := none
  payment_id : Option String := none
  session_id : Option String := none
  ghl_contact_id : Option String := none
  payment_method : Option String := none
  error : Option String := none
  rejection_reason : Option String := none
  tabby_response : Option TabbyData := none
  details : Option String := none
deriving Repr, DecidableEq

/-- The handler's outcome: HTTP status, JSON body, and the trace of
outbound calls issued. -/
structure HttpResult where
  status : Nat
  body : RespBody
  calls : List Call
deriving Repr, DecidableEq

/-! Destructuring of `req.body` with the source's defaults. -/

/-- Destructuring default `payment_method = "tabby"`. -/
def reqPM (b : Body) : String := b.payment_method.getD "tabby"

/-- Destructuring default `name = "Customer"`. -/
def reqName (b : Body) : String := b.name.getD "Customer"

/-- Destructuring default `email = ""`. -/
def reqEmail (b : Body) : String := b.email.getD ""

/-- Destructuring default `phone = ""`. -/
def reqPhone (b : Body) : String := b.phone.getD ""

/-- Destructuring default `amount = "0.00"`. -/
def reqAmount (b : Body) : String := b.amount.getD "0.00"

/-- Destructuring default `item_title = "Product"`. -/
def reqItemTitle (b : Body) : String := b.item_title.getD "Product"

/-- Destructuring default for `reference_id`: the timestamp token ``ORD-${Date.now()}``. -/
def reqReferenceId (b : Body) (now : Nat) : String :=
  b.reference_id.getD ("ORD-" ++ toString now)

/-- The shared validation condition, literally
`!phone || !amount || parseFloat(amount) <= 0`. -/
def validationFails (b : Body) : Bool :=
  !truthy (reqPhone b) || !truthy (reqAmount b) ||
    jsLeZeroOpt (jsParseFloat (reqAmount b))

/-- STEP 1 of the unified handler: the contact id obtained from the GHL
upsert — `null` unless both CRM keys are configured, the call does not
throw, and `ghlData.contact && ghlData.contact.id` holds. -/
def ghlContactIdOf (cfg : Config) (w : World) : Option String :=
  if truthy cfg.GHL_API_KEY && truthy cfg.GHL_LOCATION_ID then
    match w.ghlUpsert with
    | .ok d => if optTruthy d.contact_id then d.contact_id else none
    | .error _ => none
  else none

/-- The calls recorded by STEP 1: the upsert is attempted exactly when
both CRM keys are configured (a thrown error is caught and ignored). -/
def ghlUpsertCalls (cfg : Config) : List Call :=
  if truthy cfg.GHL_API_KEY && truthy cfg.GHL_LOCATION_ID then
    [Call.ghlUpsert]
  else []

/-- The note body posted after a Stripe session is created. -/
def stripeNoteBody (b : Body) (now : Nat) (sessionId : String) : String :=
  "💳 Stripe Checkout Started\n- Product: " ++ reqItemTitle b ++
    "\n- Amount: " ++ reqAmount b ++ " AED\n- Order Ref: " ++
    reqReferenceId b now ++ "\n- Stripe Session: " ++ sessionId ++
    "\n- Status: Awaiting Payment"

/-- The note body posted when Tabby answers `status: "created"`. -/
def tabbyNoteBody (b : Body) (now : Nat) (td : TabbyData) : String :=
  "🛒 Tabby Checkout Started\n- Product: " ++ reqItemTitle b ++
    "\n- Amount: " ++ reqAmount b ++ " AED\n- Order Ref: " ++
    reqReferenceId b now ++ "\n- Session ID: " ++ jsOrStr td.id "N/A" ++
    "\n- Payment ID: " ++ jsOrStr td.payment_id "N/A" ++
    "\n- Status: Awaiting Payment"

/-- Field `configuration?.products?.installments?.[0]?.rejection_reason`. -/
def rejectionField (td : TabbyData) : Option String :=
  (td.products_installments.head?).bind ProductInst.rejection_reason

/-- Field `configuration?.available_products?.installments?.[0]?.web_url`. -/
def tdWebUrl (td : TabbyData) : Option String :=
  (td.installments.head?).bind Installment.web_url

/-- The Stripe branch of the unified handler (`src/unnamed/part_000`,
lines 123–190). -/
def stripeBranch (cfg : Config) (b : Body) (w : World)
    (ghlContactId : Option String) (calls1 : List Call) : HttpResult :=
  if !truthy cfg.STRIPE_SECRET_KEY then
    ⟨500, { error := some "Stripe is not configured." }, calls1⟩
  else
    let unit_amount := (jsParseFloat (reqAmount b)).map jsMathRound100
    match w.stripeCreate with
    | .error msg =>
      ⟨500, { error := some "Internal server error.", details := some msg },
        calls1 ++ [Call.stripeCreate unit_amount]⟩
    | .ok session =>
      let calls2 :=
        if optTruthy ghlContactId && truthy cfg.GHL_API_KEY then
          [Call.ghlNote (stripeNoteBody b w.now session.id)]
        else []
      ⟨200,
        { success := some true, redirect_url := some session.url,
          session_id := some session.id, ghl_contact_id := ghlContactId,
          payment_method := some "stripe" },
        calls1 ++ [Call.stripeCreate unit_amount] ++ calls2⟩

/-- The Tabby branch of the unified handler (`src/unnamed/part_000`,
lines 192–326). The note after `status: "created"` is posted before the
`webUrl` check, exactly as in the source. -/
def tabbyBranch (cfg : Config) (b : Body) (w : World)
    (ghlContactId : Option String) (calls1 : List Call) : HttpResult :=
  if !truthy cfg.TABBY_SECRET_KEY || !truthy cfg.TABBY_MERCHANT_CODE then
    ⟨500, { error := some "Tabby is not configured." }, calls1⟩
  else
    match w.tabbyCreate with
    | .error msg =>
      ⟨500, { error := some "Internal server error.", details := some msg },
        calls1 ++ [Call.tabbyCreate]⟩
    | .ok tabbyData =>
      if tabbyData.status = some "created" then
        let webUrl := tdWebUrl tabbyData
        let calls2 :=
          if optTruthy ghlContactId && truthy cfg.GHL_API_KEY then
            [Call.ghlNote (tabbyNoteBody b w.now tabbyData)]
          else []
        if optTruthy webUrl then
          ⟨200,
            { success := some true, redirect_url := webUrl,
              payment_id := tabbyData.payment_id, session_id := tabbyData.id,
              ghl_contact_id := ghlContactId, payment_method := some "tabby" },
            calls1 ++ [Call.tabbyCreate] ++ calls2⟩
        else
          ⟨200,
            { success := some false,
              error := some "Session created but no redirect URL found.",
              tabby_response := some tabbyData },
            calls1 ++ [Call.tabbyCreate] ++ calls2⟩
      else if tabbyData.status = some "rejected" then
        let calls2 :=
          if optTruthy ghlContactId && truthy cfg.GHL_API_KEY then
            [Call.ghlTag ["checkout-started", "ems-suit", "tabby-rejected"]]
          else []
        ⟨200,
          { success := some false,
            error := some "Tabby was unable to approve this purchase. Please try paying with a card instead.",
            rejection_reason := some (jsOrStr (rejectionField tabbyData) "unknown") },
          calls1 ++ [Call.tabbyCreate] ++ calls2⟩
      else
        ⟨200,
          { success := some false,
            error := some "Unexpected response from Tabby.",
            tabby_response := some tabbyData },
          calls1 ++ [Call.tabbyCreate]⟩

/-- The unified handler, `src/unnamed/part_000`: CORS/method gate,
field extraction, validation (phone/amount, then email), best-effort GHL
contact upsert, then dispatch on `payment_method === "stripe"`. -/
def handler2 (cfg : Config) (req : Request) (w : World) : HttpResult :=
  if req.method = "OPTIONS" then ⟨200, {}, []⟩
  else if req.method ≠ "POST" then
    ⟨405, { error := some "Method not allowed" }, []⟩
  else if validationFails req.body then
    ⟨400, { error := some "Missing required fields: phone and amount are required." }, []⟩
  else if !truthy (reqEmail req.body) then
    ⟨400, { error := some "Email is required." }, []⟩
  else
    let ghlContactId := ghlContactIdOf cfg w
    let calls1 := ghlUpsertCalls cfg
    if reqPM req.body = "stripe" then
      stripeBranch cfg req.body w ghlContactId calls1
    else
      tabbyBranch cfg req.body w ghlContactId calls1

/-- The Tabby call and response handling of `src/api/create-session.js`
(lines 94–139 plus the surrounding catch).  Note the source's `webUrl`
is `installments?.web_url || ...installments?.[0]?.web_url`, the
fallback being the same expression again. -/
def tabbyRespond1 (w : World) : HttpResult :=
  match w.tabbyCreate with
    | .error msg =>
      ⟨500,
        { error := some "Internal server error while creating Tabby session.",
          details := some msg },
        [Call.tabbyCreate]⟩
    | .ok tabbyData =>
      if tabbyData.status = some "created" then
        let inst0 := tdWebUrl tabbyData
        let webUrl := jsOrOpt inst0 (tdWebUrl tabbyData)
        if optTruthy webUrl then
          ⟨200,
            { success := some true, redirect_url := webUrl,
              payment_id := tabbyData.payment_id, session_id := tabbyData.id },
            [Call.tabbyCreate]⟩
        else
          ⟨200,
            { success := some false,
              error := some "Session created but no redirect URL found. Check Tabby dashboard.",
              tabby_response := some tabbyData },
            [Call.tabbyCreate]⟩
      else if tabbyData.status = some "rejected" then
        ⟨200,
          { success := some false,
            error := some "Tabby was unable to approve this purchase. The customer may need to use an alternative payment method.",
            rejection_reason := some (jsOrStr (rejectionField tabbyData) "unknown") },
          [Call.tabbyCreate]⟩
      else
        ⟨200,
          { success := some false,
            error := some "Unexpected response from Tabby.",
            tabby_response := some tabbyData },
          [Call.tabbyCreate]⟩

/-- The Tabby-only handler, `src/api/create-session.js`: CORS/method
gate, then the Tabby configuration check (before extraction and
validation), then validation, then the Tabby call. -/
def handler1 (cfg : Config) (req : Request) (w : World) : HttpResult :=
  if req.method = "OPTIONS" then ⟨200, {}, []⟩
  else if req.method ≠ "POST" then
    ⟨405, { error := some "Method not allowed" }, []⟩
  else if !truthy cfg.TABBY_SECRET_KEY || !truthy cfg.TABBY_MERCHANT_CODE then
    ⟨500, { error := some "Server misconfigured: missing Tabby keys" }, []⟩
  else if validationFails req.body then
    ⟨400, { error := some "Missing required fields: phone and amount are required." }, []⟩
  else
    tabbyRespond1 w

/-! Concrete sample inputs used by the witnesses and counterexamples. -/

/-- A configuration with every provider and the CRM configured. -/
def cfgAll : Config :=
  ⟨"sk_tabby", "pk_tabby", "mc_1", "sk_stripe", "ghl_key", "loc_1"⟩

/-- Everything configured except Stripe. -/
def cfgNoStripe : Config := { cfgAll with STRIPE_SECRET_KEY := "" }

/-- Only the two Tabby keys the code checks; no public key, no CRM. -/
def cfgNoPublic : Config :=
  { TABBY_SECRET_KEY := "sk_tabby", TABBY_MERCHANT_CODE := "mc_1" }

/-- Nothing configured at all. -/
def cfgEmpty : Config := {}

/-- A valid Tabby-path request body. -/
def bodyTabby : Body :=
  { phone := some "+971500000000", amount := some "50", email := some "b@ex.ae" }

/-- The same body routed to Stripe. -/
def bodyStripe : Body := { bodyTabby with payment_method := some "stripe" }

/-- Stripe body with the fractional amount of the spec's example. -/
def bodyStripe19 : Body := { bodyStripe with amount := some "19.999" }

/-- A body whose amount is not numeric (`parseFloat` gives `NaN`). -/
def bodyAbc : Body := { bodyTabby with amount := some "abc" }

/-- A body with no phone at all. -/
def bodyNoPhone : Body := { amount := some "50", email := some "b@ex.ae" }

/-- A body with an unrecognized payment method. -/
def bodyPaypal : Body := { bodyTabby with payment_method := some "STRIPE" }

/-- Wrap a body in a POST request. -/
def reqOf (b : Body) : Request := ⟨"POST", b⟩

/-- Tabby answers `created` with an installments web URL. -/
def tdCreatedUrl : TabbyData :=
  { status := some "created", id := some "sess1", payment_id := some "pay1",
    installments := [⟨some "https://pay/x"⟩] }

/-- Tabby answers `created` but with no installments entry at all. -/
def tdCreatedNoUrl : TabbyData :=
  { status := some "created", id := some "sess1", payment_id := some "pay1" }

/-- Tabby rejects with a reason. -/
def tdRejected : TabbyData :=
  { status := some "rejected", products_installments := [⟨some "risky"⟩] }

/-- Tabby answers an unrecognized status. -/
def tdExpired : TabbyData := { status := some "expired" }

/-- A world where every outbound call succeeds. -/
def wBase : World :=
  { ghlUpsert := .ok ⟨some "c1"⟩, stripeCreate := .ok ⟨"cs_1", "https://stripe/s"⟩,
    tabbyCreate := .ok tdCreatedUrl, ghlNote := .ok (), ghlTag := .ok (), now := 7 }

/-- Variant of `wBase` with a chosen Tabby answer. -/
def wTabby (t : Except String TabbyData) : World := { wBase with tabbyCreate := t }

/-- Variant of `wBase` with the CRM upsert throwing a network error. -/
def wUpsertFail : World := { wBase with ghlUpsert := .error "ECONNRESET" }

/-! Theorems. -/

/-- The value `Math.round(q * 100)` as computed by `jsMathRound100` is
`⌊q * 100 + 1/2⌋`, i.e. rounding half toward positive infinity. -/
theorem jsMathRound100_eq (q : ℚ) : jsMathRound100 q = ⌊q * 100 + 1 / 2⌋ := by
  have h1 : jsMathRound100 q = (200 * q.num + (q.den : Int)) / (((2 * q.den : ℕ) : ℤ)) := by
    unfold jsMathRound100
    push_cast
    ring_nf
  have h2 : ((200 * q.num + (q.den : Int) : ℤ) : ℚ) / ((2 * q.den : ℕ) : ℚ) =
      q * 100 + 1 / 2 := by
    have hdne : ((q.den : ℚ)) ≠ 0 := by
      exact_mod_cast q.den_nz
    conv_rhs => rw [← Rat.num_div_den q]
    push_cast
    field_simp
    ring
  rw [h1, ← Rat.floor_intCast_div_natCast, h2]

/-- JS `a || a` is `a`. -/
theorem jsOrOpt_self (a : Option String) : jsOrOpt a a = a := by
  unfold jsOrOpt; split <;> rfl

/-- STEP 1 records at most the upsert call. -/
theorem mem_ghlUpsertCalls (cfg : Config) (c : Call)
    (h : c ∈ ghlUpsertCalls cfg) : c = Call.ghlUpsert := by
  unfold ghlUpsertCalls at h
  split at h <;> simp_all

/-- A POST request that passes both validations reaches the
provider-dispatch of the unified handler. -/
theorem handler2_post (cfg : Config) (req : Request) (w : World)
    (hm : req.method = "POST") (hvf : validationFails req.body = false)
    (he : truthy (reqEmail req.body) = true) :
    handler2 cfg req w =
      if reqPM req.body = "stripe" then
        stripeBranch cfg req.body w (ghlContactIdOf cfg w) (ghlUpsertCalls cfg)
      else
        tabbyBranch cfg req.body w (ghlContactIdOf cfg w) (ghlUpsertCalls cfg) := by
  unfold handler2
  rw [hm]
  simp [hvf, he]

/-- A POST request that passes validation under a configured Tabby
reaches the Tabby call in the Tabby-only handler. -/
theorem handler1_post (cfg : Config) (req : Request) (w : World)
    (hm : req.method = "POST")
    (hcfg : (!truthy cfg.TABBY_SECRET_KEY || !truthy cfg.TABBY_MERCHANT_CODE) = false)
    (hvf : validationFails req.body = false) :
    handler1 cfg req w = tabbyRespond1 w := by
  unfold handler1
  rw [hm]
  simp [hcfg, hvf]

/-- C1: for every Tabby API response with status `"created"`, in both
handler variants: if `configuration.available_products.installments[0].web_url`
is present (JS-truthy, i.e. a non-empty string), the handler responds
HTTP 200 with `success: true`, `redirect_url` equal to that `web_url`,
`payment_id` equal to the response's `payment.id` and `session_id` equal
to the response's `id`; if it is absent, the handler responds HTTP 200
with `success: false`, a diagnostic error message, and the raw provider
response under `tabby_response`. -/
theorem tabby_created_outcome (cfg : Config) (req : Request) (w : World) (td : TabbyData)
    (hm : req.method = "POST") (hvf : validationFails req.body = false)
    (he : truthy (reqEmail req.body) = true) (hpm : reqPM req.body ≠ "stripe")
    (hcfg : (!truthy cfg.TABBY_SECRET_KEY || !truthy cfg.TABBY_MERCHANT_CODE) = false)
    (ht : w.tabbyCreate = .ok td) (hs : td.status = some "created") :
    (optTruthy (tdWebUrl td) = true →
       (handler2 cfg req w).status = 200 ∧
       (handler2 cfg req w).body.success = some true ∧
       (handler2 cfg req w).body.redirect_url = tdWebUrl td ∧
       (handler2 cfg req w).body.payment_id = td.payment_id ∧
       (handler2 cfg req w).body.session_id = td.id ∧
       (handler1 cfg req w).status = 200 ∧
       (handler1 cfg req w).body.success = some true ∧
       (handler1 cfg req w).body.redirect_url = tdWebUrl td ∧
       (handler1 cfg req w).body.payment_id = td.payment_id ∧
       (handler1 cfg req w).body.session_id = td.id) ∧
    (optTruthy (tdWebUrl td) = false →
       (handler2 cfg req w).status = 200 ∧
       (handler2 cfg req w).body.success = some false ∧
       (handler2 cfg req w).body.error = some "Session created but no redirect URL found." ∧
       (handler2 cfg req w).body.tabby_response = some td ∧
       (handler1 cfg req w).status = 200 ∧
       (handler1 cfg req w).body.success = some false ∧
       (handler1 cfg req w).body.error = some "Session created but no redirect URL found. Check Tabby dashboard." ∧
       (handler1 cfg req w).body.tabby_response = some td) := by
  rw [handler2_post cfg req w hm hvf he, if_neg hpm,
    handler1_post cfg req w hm hcfg hvf]
  obtain ⟨wu, ws, wt, wn, wg, wnow⟩ := w
  simp only at ht
  subst ht
  constructor <;> intro hw <;>
    simp [tabbyBranch, tabbyRespond1, hcfg, hs, hw, jsOrOpt_self]

/-- Every Stripe-session call recorded by the Stripe branch carries
`Math.round(parseFloat(amount) * 100)` as its `unit_amount`. -/
theorem stripeBranch_unit_amount (cfg : Config) (b : Body) (w : World)
    (gci : Option String) (calls1 : List Call)
    (h1 : ∀ c ∈ calls1, c = Call.ghlUpsert) (ua : Option Int)
    (h : Call.stripeCreate ua ∈ (stripeBranch cfg b w gci calls1).calls) :
    ua = (jsParseFloat (reqAmount b)).map jsMathRound100 := by
  unfold stripeBranch at h
  split at h
  · exact absurd (h1 _ h) (by simp)
  · split at h
    · simp only [List.mem_append, List.mem_singleton] at h
      rcases h with h | h
      · exact absurd (h1 _ h) (by simp)
      · simpa using h
    · simp only [List.append_assoc, List.mem_append, List.mem_singleton] at h
      rcases h with h | h | h
      · exact absurd (h1 _ h) (by simp)
      · simpa using h
      · split at h <;> simp_all

/-- C8: on the Stripe path the `unit_amount` sent to Stripe equals
`round(parseFloat(amount) * 100)` — rounding, not truncation. -/
theorem stripe_unit_amount_rounded (cfg : Config) (req : Request) (w : World) (q : ℚ)
    (hm : req.method = "POST") (hvf : validationFails req.body = false)
    (he : truthy (reqEmail req.body) = true) (hpm : reqPM req.body = "stripe")
    (hq : jsParseFloat (reqAmount req.body) = some q) :
    ∀ ua : Option Int, Call.stripeCreate ua ∈ (handler2 cfg req w).calls →
      ua = some ⌊q * 100 + 1 / 2⌋ := by
  intro ua hua
  rw [handler2_post cfg req w hm hvf he, if_pos hpm] at hua
  have := stripeBranch_unit_amount cfg req.body w (ghlContactIdOf cfg w)
    (ghlUpsertCalls cfg) (fun c hc => mem_ghlUpsertCalls cfg c hc) ua hua
  rw [this, hq, Option.map_some', jsMathRound100_eq]

/-- Witness for C8: amount `"19.999"` yields `unit_amount` 2000 (and
not the truncated 1999). -/
theorem stripe_unit_amount_rounded_witness :
    Call.stripeCreate (some 2000) ∈ (handler2 cfgAll (reqOf bodyStripe19) wBase).calls ∧
    some (2000 : Int) = some ⌊(mkRat 19999 1000 : ℚ) * 100 + 1 / 2⌋ ∧
    (2000 : Int) ≠ 1999 := by
  refine ⟨by decide, ?_, by decide⟩
  exact stripe_unit_amount_rounded cfgAll (reqOf bodyStripe19) wBase
    (mkRat 19999 1000) rfl (by decide) (by decide) (by decide) (by decide)
    (some 2000) (by decide)

/-- Witness for C1 at concrete inputs, both for a response carrying a
web URL and for one without. -/
theorem tabby_created_outcome_witness :
    (handler2 cfgAll (reqOf bodyTabby) (wTabby (Except.ok tdCreatedUrl))).body.redirect_url =
      tdWebUrl tdCreatedUrl ∧
    (handler1 cfgAll (reqOf bodyTabby) (wTabby (Except.ok tdCreatedUrl))).body.success = some true ∧
    (handler2 cfgAll (reqOf bodyTabby) (wTabby (Except.ok tdCreatedNoUrl))).body.success = some false ∧
    (handler2 cfgAll (reqOf bodyTabby) (wTabby (Except.ok tdCreatedNoUrl))).body.tabby_response =
      some tdCreatedNoUrl := by
  have h1 := tabby_created_outcome cfgAll (reqOf bodyTabby) (wTabby (Except.ok tdCreatedUrl))
    tdCreatedUrl rfl (by decide) (by decide) (by decide) (by decide) rfl rfl
  have h2 := tabby_created_outcome cfgAll (reqOf bodyTabby) (wTabby (Except.ok tdCreatedNoUrl))
    tdCreatedNoUrl rfl (by decide) (by decide) (by decide) (by decide) rfl rfl
  exact ⟨((h1.1 (by decide))).2.2.1, ((h1.1 (by decide))).2.2.2.2.2.2.1,
    ((h2.2 (by decide))).2.1, ((h2.2 (by decide))).2.2.2.1⟩

/-- C2: for a Tabby response with status `"rejected"`, both variants
respond HTTP 200 with `success: false` and `rejection_reason` equal to
`configuration.products.installments[0].rejection_reason` when that
field is present (JS-truthy), or `"unknown"` when it is absent; in the
unified variant, when the CRM produced a contact id and the GHL key is
set, the contact's tags are updated to a list including
`"tabby-rejected"`.  For any other unrecognized status both variants
respond HTTP 200 with `success: false`, the generic unexpected-response
error, and the raw payload attached. -/
theorem tabby_rejected_outcome (cfg : Config) (req : Request) (w : World) (td : TabbyData)
    (hm : req.method = "POST") (hvf : validationFails req.body = false)
    (he : truthy (reqEmail req.body) = true) (hpm : reqPM req.body ≠ "stripe")
    (hcfg : (!truthy cfg.TABBY_SECRET_KEY || !truthy cfg.TABBY_MERCHANT_CODE) = false)
    (ht : w.tabbyCreate = .ok td) :
    (td.status = some "rejected" →
      (handler2 cfg req w).status = 200 ∧
      (handler2 cfg req w).body.success = some false ∧
      (handler1 cfg req w).status = 200 ∧
      (handler1 cfg req w).body.success = some false ∧
      (∀ s, rejectionField td = some s → truthy s = true →
        (handler2 cfg req w).body.rejection_reason = some s ∧
        (handler1 cfg req w).body.rejection_reason = some s) ∧
      (rejectionField td = none →
        (handler2 cfg req w).body.rejection_reason = some "unknown" ∧
        (handler1 cfg req w).body.rejection_reason = some "unknown") ∧
      (optTruthy (ghlContactIdOf cfg w) = true → truthy cfg.GHL_API_KEY = true →
        Call.ghlTag ["checkout-started", "ems-suit", "tabby-rejected"] ∈
          (handler2 cfg req w).calls ∧
        "tabby-rejected" ∈ (["checkout-started", "ems-suit", "tabby-rejected"] : List String))) ∧
    (td.status ≠ some "created" → td.status ≠ some "rejected" →
      (handler2 cfg req w).status = 200 ∧
      (handler2 cfg req w).body.success = some false ∧
      (handler2 cfg req w).body.error = some "Unexpected response from Tabby." ∧
      (handler2 cfg req w).body.tabby_response = some td ∧
      (handler1 cfg req w).status = 200 ∧
      (handler1 cfg req w).body.success = some false ∧
      (handler1 cfg req w).body.error = some "Unexpected response from Tabby." ∧
      (handler1 cfg req w).body.tabby_response = some td) := by
  rw [handler2_post cfg req w hm hvf he, if_neg hpm,
    handler1_post cfg req w hm hcfg hvf]
  obtain ⟨wu, ws, wt, wn, wg, wnow⟩ := w
  simp only at ht
  subst ht
  constructor
  · intro hs
    have hnc : td.status ≠ some "created" := by rw [hs]; decide
    refine ⟨?_, ?_, ?_, ?_, ?_, ?_, ?_⟩ <;>
      simp only [tabbyBranch, tabbyRespond1, hcfg, hs, Bool.false_eq_true, if_false,
        if_neg (by rw [hs]; decide : ¬ td.status = some "created"), if_pos rfl]
    · rfl
    · rfl
    · rfl
    · rfl
    · intro s hsf hst
      constructor <;> simp [jsOrStr, hsf, hst]
    · intro hsf
      constructor <;> simp [jsOrStr, hsf]
    · intro hgci hkey
      simp [hgci, hkey]
  · intro hnc hnr
    simp [tabbyBranch, tabbyRespond1, hcfg, hnc, hnr]

/-- Witness for C2 at a concrete rejected response and a concrete
unrecognized-status response. -/
theorem tabby_rejected_outcome_witness :
    (handler2 cfgAll (reqOf bodyTabby) (wTabby (Except.ok tdRejected))).body.rejection_reason = some "risky" ∧
    Call.ghlTag ["checkout-started", "ems-suit", "tabby-rejected"] ∈
      (handler2 cfgAll (reqOf bodyTabby) (wTabby (Except.ok tdRejected))).calls ∧
    (handler2 cfgAll (reqOf bodyTabby) (wTabby (Except.ok tdExpired))).body.error =
      some "Unexpected response from Tabby." := by
  have h1 := tabby_rejected_outcome cfgAll (reqOf bodyTabby) (wTabby (Except.ok tdRejected))
    tdRejected rfl (by decide) (by decide) (by decide) (by decide) rfl
  have h2 := tabby_rejected_outcome cfgAll (reqOf bodyTabby) (wTabby (Except.ok tdExpired))
    tdExpired rfl (by decide) (by decide) (by decide) (by decide) rfl
  have hr := h1.1 rfl
  exact ⟨(hr.2.2.2.2.1 "risky" (by decide) (by decide)).1,
    (hr.2.2.2.2.2.2 (by decide) (by decide)).1, (h2.2 (by decide) (by decide)).2.2.1⟩

/-- A string is JS-falsy exactly when it is empty. -/
theorem truthy_eq_false (s : String) : truthy s = false ↔ s = "" := by
  simp [truthy]

/-- The JS comparison `parseFloat(x) <= 0` holds exactly when the parse
produced an actual number that is at most zero (`NaN` compares false). -/
theorem jsLeZeroOpt_eq_true (o : Option ℚ) :
    jsLeZeroOpt o = true ↔ ∃ q, o = some q ∧ q ≤ 0 := by
  cases o <;> simp [jsLeZeroOpt]

/-- The shared validation condition fails exactly on an empty phone, an
empty amount, or an amount parsing to a number at most zero. -/
theorem validationFails_iff (b : Body) :
    validationFails b = true ↔
      (reqPhone b = "" ∨ reqAmount b = "" ∨
        ∃ q, jsParseFloat (reqAmount b) = some q ∧ q ≤ 0) := by
  simp only [validationFails, Bool.or_eq_true, Bool.not_eq_true', truthy_eq_false,
    jsLeZeroOpt_eq_true]
  tauto

/-- Unified handler: a POST failing phone/amount validation returns the
400 result with no calls. -/
theorem handler2_result_vf (cfg : Config) (req : Request) (w : World)
    (hm : req.method = "POST") (hvf : validationFails req.body = true) :
    handler2 cfg req w =
      ⟨400, { error := some "Missing required fields: phone and amount are required." }, []⟩ := by
  unfold handler2
  rw [hm]
  simp [hvf]

/-- Unified handler: a POST passing phone/amount validation but with a
falsy email returns the email 400 result with no calls. -/
theorem handler2_result_email (cfg : Config) (req : Request) (w : World)
    (hm : req.method = "POST") (hvf : validationFails req.body = false)
    (he : truthy (reqEmail req.body) = false) :
    handler2 cfg req w = ⟨400, { error := some "Email is required." }, []⟩ := by
  unfold handler2
  rw [hm]
  simp [hvf, he]

/-- Tabby-only handler: under a configured Tabby, a POST failing
validation returns the 400 result with no calls. -/
theorem handler1_result_vf (cfg : Config) (req : Request) (w : World)
    (hm : req.method = "POST")
    (hcfg : (!truthy cfg.TABBY_SECRET_KEY || !truthy cfg.TABBY_MERCHANT_CODE) = false)
    (hvf : validationFails req.body = true) :
    handler1 cfg req w =
      ⟨400, { error := some "Missing required fields: phone and amount are required." }, []⟩ := by
  unfold handler1
  rw [hm]
  simp [hcfg, hvf]

/-- Tabby-only handler: a POST with the secret key or merchant code
missing returns the 500 config-error result with no calls, regardless
of the body. -/
theorem handler1_result_misconfig (cfg : Config) (req : Request) (w : World)
    (hm : req.method = "POST")
    (hcfg : (!truthy cfg.TABBY_SECRET_KEY || !truthy cfg.TABBY_MERCHANT_CODE) = true) :
    handler1 cfg req w =
      ⟨500, { error := some "Server misconfigured: missing Tabby keys" }, []⟩ := by
  unfold handler1
  rw [hm]
  simp [hcfg]

/-- Unified handler: once both validations pass, no path returns 400. -/
theorem handler2_status_ne_400 (cfg : Config) (req : Request) (w : World)
    (hm : req.method = "POST") (hvf : validationFails req.body = false)
    (he : truthy (reqEmail req.body) = true) :
    (handler2 cfg req w).status ≠ 400 := by
  rw [handler2_post cfg req w hm hvf he]
  split
  · unfold stripeBranch
    repeat' split
    all_goals simp
  · unfold tabbyBranch
    repeat' split
    all_goals simp [apply_ite HttpResult.status]

/-- Tabby-only handler: once validation passes, no path returns 400. -/
theorem handler1_status_ne_400 (cfg : Config) (req : Request) (w : World)
    (hm : req.method = "POST") (hvf : validationFails req.body = false) :
    (handler1 cfg req w).status ≠ 400 := by
  unfold handler1 tabbyRespond1
  rw [hm]
  simp only [hvf]
  repeat' split
  all_goals simp_all

/-- Counterexample to C3: with `amount = "abc"` (non-empty phone, email)
`parseFloat` yields `NaN`, which does not compare `<= 0`, so neither
variant returns 400 — both proceed (HTTP 200 here) and the Tabby call
is made, contradicting the claim that `"abc"` is rejected with 400. -/
theorem validation_nonnumeric_amount_passes :
    reqPhone bodyAbc ≠ "" ∧ reqAmount bodyAbc ≠ "" ∧ reqEmail bodyAbc ≠ "" ∧
    jsParseFloat (reqAmount bodyAbc) = none ∧
    (handler2 cfgAll (reqOf bodyAbc) wBase).status = 200 ∧
    (handler1 cfgAll (reqOf bodyAbc) wBase).status = 200 ∧
    Call.tabbyCreate ∈ (handler2 cfgAll (reqOf bodyAbc) wBase).calls := by decide

/-- C3 (amended): a POST returns HTTP 400 exactly when phone is empty,
amount is empty, or amount parses to an actual number ≤ 0 — NaN passes —
plus, in the unified variant, when email is empty; for the Tabby-only
variant this holds provided the Tabby keys are configured (their check
precedes validation). -/
theorem validation_400_iff (cfg : Config) (req : Request) (w : World)
    (hm : req.method = "POST") :
    ((handler2 cfg req w).status = 400 ↔
      (reqPhone req.body = "" ∨ reqAmount req.body = "" ∨
        (∃ q, jsParseFloat (reqAmount req.body) = some q ∧ q ≤ 0) ∨
        reqEmail req.body = "")) ∧
    ((!truthy cfg.TABBY_SECRET_KEY || !truthy cfg.TABBY_MERCHANT_CODE) = false →
      ((handler1 cfg req w).status = 400 ↔
        (reqPhone req.body = "" ∨ reqAmount req.body = "" ∨
          ∃ q, jsParseFloat (reqAmount req.body) = some q ∧ q ≤ 0))) := by
  constructor
  · constructor
    · intro h400
      by_cases hvf : validationFails req.body = true
      · rcases (validationFails_iff req.body).mp hvf with h | h | h
        · exact Or.inl h
        · exact Or.inr (Or.inl h)
        · exact Or.inr (Or.inr (Or.inl h))
      · have hvf' : validationFails req.body = false := by simpa using hvf
        by_cases he : truthy (reqEmail req.body) = true
        · exact absurd h400 (handler2_status_ne_400 cfg req w hm hvf' he)
        · have he' : truthy (reqEmail req.body) = false := by simpa using he
          exact Or.inr (Or.inr (Or.inr ((truthy_eq_false _).mp he')))
    · intro hcond
      by_cases hvf : validationFails req.body = true
      · rw [handler2_result_vf cfg req w hm hvf]
      · have hvf' : validationFails req.body = false := by simpa using hvf
        have hnv := (validationFails_iff req.body).not.mp (by simpa using hvf)
        push_neg at hnv
        have he : reqEmail req.body = "" := by
          rcases hcond with h | h | h | h
          · exact absurd h hnv.1
          · exact absurd h hnv.2.1
          · obtain ⟨q, hq, hle⟩ := h
            exact absurd hle (not_le.mpr (hnv.2.2 q hq))
          · exact h
        rw [handler2_result_email cfg req w hm hvf' ((truthy_eq_false _).mpr he)]
  · intro hcfg
    constructor
    · intro h400
      by_cases hvf : validationFails req.body = true
      · exact (validationFails_iff req.body).mp hvf
      · have hvf' : validationFails req.body = false := by simpa using hvf
        exact absurd h400 (handler1_status_ne_400 cfg req w hm hvf')
    · intro hcond
      have hvf : validationFails req.body = true := (validationFails_iff req.body).mpr hcond
      rw [handler1_result_vf cfg req w hm hcfg hvf]

/-- Witness for C3's amended theorem: a request with no phone gets 400
from both variants. -/
theorem validation_400_iff_witness :
    (handler2 cfgAll (reqOf bodyNoPhone) wBase).status = 400 ∧
    (handler1 cfgAll (reqOf bodyNoPhone) wBase).status = 400 := by
  have h := validation_400_iff cfgAll (reqOf bodyNoPhone) wBase rfl
  exact ⟨h.1.mpr (Or.inl (by decide)), (h.2 (by decide)).mpr (Or.inl (by decide))⟩

/-- Counterexample to C4: in the Tabby-only variant the configuration
check precedes validation, so a request missing its phone gets 500, not
400, when the Tabby keys are missing (still with no outbound call). -/
theorem missing_phone_misconfigured_returns_500 :
    reqPhone bodyNoPhone = "" ∧
    (handler1 cfgEmpty (reqOf bodyNoPhone) wBase).status = 500 ∧
    (handler1 cfgEmpty (reqOf bodyNoPhone) wBase).status ≠ 400 ∧
    (handler1 cfgEmpty (reqOf bodyNoPhone) wBase).calls = [] := by decide

/-- C4 (amended): for a POST missing the phone or whose amount parses
`<= 0`, no outbound call is made by either variant; the unified variant
returns 400 for every configuration, while the Tabby-only variant
returns 400 when the Tabby keys are configured and 500 when they are
missing. -/
theorem invalid_request_no_outbound_calls (cfg : Config) (req : Request) (w : World)
    (hm : req.method = "POST")
    (hbad : reqPhone req.body = "" ∨ jsLeZeroOpt (jsParseFloat (reqAmount req.body)) = true) :
    (handler2 cfg req w).status = 400 ∧ (handler2 cfg req w).calls = [] ∧
    (handler1 cfg req w).calls = [] ∧
    ((!truthy cfg.TABBY_SECRET_KEY || !truthy cfg.TABBY_MERCHANT_CODE) = false →
      (handler1 cfg req w).status = 400) ∧
    ((!truthy cfg.TABBY_SECRET_KEY || !truthy cfg.TABBY_MERCHANT_CODE) = true →
      (handler1 cfg req w).status = 500) := by
  have hvf : validationFails req.body = true := by
    unfold validationFails
    rcases hbad with h | h
    · simp [truthy, h]
    · simp [h]
  rw [handler2_result_vf cfg req w hm hvf]
  refine ⟨rfl, rfl, ?_, ?_, ?_⟩
  · by_cases hcfg : (!truthy cfg.TABBY_SECRET_KEY || !truthy cfg.TABBY_MERCHANT_CODE) = true
    · rw [handler1_result_misconfig cfg req w hm hcfg]
    · rw [handler1_result_vf cfg req w hm (by simpa using hcfg) hvf]
  · intro hcfg
    rw [handler1_result_vf cfg req w hm hcfg hvf]
  · intro hcfg
    rw [handler1_result_misconfig cfg req w hm hcfg]

/-- Witness for C4's amended theorem at a request with no phone. -/
theorem invalid_request_no_outbound_calls_witness :
    (handler2 cfgAll (reqOf bodyNoPhone) wBase).status = 400 ∧
    (handler2 cfgAll (reqOf bodyNoPhone) wBase).calls = [] ∧
    (handler1 cfgAll (reqOf bodyNoPhone) wBase).calls = [] := by
  have h := invalid_request_no_outbound_calls cfgAll (reqOf bodyNoPhone) wBase rfl
    (Or.inl (by decide))
  exact ⟨h.1, h.2.1, h.2.2.1⟩

/-- Counterexample to C5: with CRM configured and Stripe not, a valid
`payment_method: "stripe"` request gets 500 — but the CRM contact
upsert (an outbound call) has already been made, since STEP 1 precedes
the Stripe configuration check. -/
theorem stripe_unconfigured_upsert_already_made :
    truthy cfgNoStripe.STRIPE_SECRET_KEY = false ∧
    (handler2 cfgNoStripe (reqOf bodyStripe) wBase).status = 500 ∧
    Call.ghlUpsert ∈ (handler2 cfgNoStripe (reqOf bodyStripe) wBase).calls := by decide

/-- C5 (amended): a valid request with `payment_method = "stripe"` and
no `STRIPE_SECRET_KEY` gets HTTP 500 and no Stripe call, no note and no
Tabby call is made — the only possible outbound call is the STEP-1 CRM
contact upsert, which runs before the Stripe configuration check; with
the CRM unconfigured no outbound call at all is made. -/
theorem stripe_unconfigured_500 (cfg : Config) (req : Request) (w : World)
    (hm : req.method = "POST") (hvf : validationFails req.body = false)
    (he : truthy (reqEmail req.body) = true) (hpm : reqPM req.body = "stripe")
    (hkey : truthy cfg.STRIPE_SECRET_KEY = false) :
    (handler2 cfg req w).status = 500 ∧
    (handler2 cfg req w).body.error = some "Stripe is not configured." ∧
    (∀ c ∈ (handler2 cfg req w).calls, c = Call.ghlUpsert) ∧
    ((truthy cfg.GHL_API_KEY && truthy cfg.GHL_LOCATION_ID) = false →
      (handler2 cfg req w).calls = []) := by
  have hres : handler2 cfg req w =
      ⟨500, { error := some "Stripe is not configured." }, ghlUpsertCalls cfg⟩ := by
    rw [handler2_post cfg req w hm hvf he, if_pos hpm]
    unfold stripeBranch
    simp [hkey]
  rw [hres]
  refine ⟨rfl, rfl, fun c hc => mem_ghlUpsertCalls cfg c hc, fun hg => ?_⟩
  unfold ghlUpsertCalls
  simp [hg]

/-- Witness for C5's amended theorem at a concrete configuration. -/
theorem stripe_unconfigured_500_witness :
    (handler2 cfgNoStripe (reqOf bodyStripe) wBase).status = 500 ∧
    (handler2 cfgNoStripe (reqOf bodyStripe) wBase).body.error =
      some "Stripe is not configured." := by
  have h := stripe_unconfigured_500 cfgNoStripe (reqOf bodyStripe) wBase rfl
    (by decide) (by decide) (by decide) (by decide)
  exact ⟨h.1, h.2.1⟩

/-- Counterexample to C6: with the secret key and merchant code set but
no `TABBY_PUBLIC_KEY`, both variants still make the Tabby call and
answer 200 — the public key is never checked. -/
theorem tabby_missing_public_key_still_calls :
    truthy cfgNoPublic.TABBY_PUBLIC_KEY = false ∧
    (handler2 cfgNoPublic (reqOf bodyTabby) wBase).status = 200 ∧
    Call.tabbyCreate ∈ (handler2 cfgNoPublic (reqOf bodyTabby) wBase).calls ∧
    (handler1 cfgNoPublic (reqOf bodyTabby) wBase).status = 200 ∧
    Call.tabbyCreate ∈ (handler1 cfgNoPublic (reqOf bodyTabby) wBase).calls := by decide

/-- C6 (amended): the Tabby path requires only the secret key and the
merchant code: if either is missing, both variants respond HTTP 500
with their config error and make no Tabby call.  (The public key is not
checked; see the counterexample.) -/
theorem tabby_missing_secret_or_merchant_500 (cfg : Config) (req : Request) (w : World)
    (hm : req.method = "POST") (hvf : validationFails req.body = false)
    (he : truthy (reqEmail req.body) = true) (hpm : reqPM req.body ≠ "stripe")
    (hcfg : (!truthy cfg.TABBY_SECRET_KEY || !truthy cfg.TABBY_MERCHANT_CODE) = true) :
    (handler2 cfg req w).status = 500 ∧
    (handler2 cfg req w).body.error = some "Tabby is not configured." ∧
    Call.tabbyCreate ∉ (handler2 cfg req w).calls ∧
    handler1 cfg req w =
      ⟨500, { error := some "Server misconfigured: missing Tabby keys" }, []⟩ := by
  have hres : handler2 cfg req w =
      ⟨500, { error := some "Tabby is not configured." }, ghlUpsertCalls cfg⟩ := by
    rw [handler2_post cfg req w hm hvf he, if_neg hpm]
    unfold tabbyBranch
    simp [hcfg]
  rw [hres]
  exact ⟨rfl, rfl, fun hc => by simpa using mem_ghlUpsertCalls cfg _ hc,
    handler1_result_misconfig cfg req w hm hcfg⟩

/-- Witness for C6's amended theorem with nothing configured. -/
theorem tabby_missing_secret_or_merchant_500_witness :
    (handler2 cfgEmpty (reqOf bodyTabby) wBase).status = 500 ∧
    Call.tabbyCreate ∉ (handler2 cfgEmpty (reqOf bodyTabby) wBase).calls ∧
    (handler1 cfgEmpty (reqOf bodyTabby) wBase).status = 500 := by
  have h := tabby_missing_secret_or_merchant_500 cfgEmpty (reqOf bodyTabby) wBase rfl
    (by decide) (by decide) (by decide) (by decide)
  exact ⟨h.1, h.2.2.1, by rw [h.2.2.2]⟩

/-- C7: the unified handler's outcome never depends on the results of
the CRM note or tag calls (full result equality for any two worlds
differing only there), and a CRM upsert failure does not prevent a
valid Stripe or Tabby session from being created and returned with
`success: true` — the response's `ghl_contact_id` is simply `null`. -/
theorem crm_failures_isolated (cfg : Config) (req : Request)
    (u : Except String GhlUpsertData) (s : Except String StripeSession)
    (t : Except String TabbyData) (n n' g g' : Except String Unit) (now : Nat)
    (e : String) (sess : StripeSession) (td : TabbyData)
    (hm : req.method = "POST") (hvf : validationFails req.body = false)
    (he : truthy (reqEmail req.body) = true) :
    handler2 cfg req ⟨u, s, t, n, g, now⟩ = handler2 cfg req ⟨u, s, t, n', g', now⟩ ∧
    (reqPM req.body = "stripe" → truthy cfg.STRIPE_SECRET_KEY = true →
      s = .ok sess →
      (handler2 cfg req ⟨.error e, s, t, n, g, now⟩).status = 200 ∧
      (handler2 cfg req ⟨.error e, s, t, n, g, now⟩).body.success = some true ∧
      (handler2 cfg req ⟨.error e, s, t, n, g, now⟩).body.redirect_url = some sess.url ∧
      (handler2 cfg req ⟨.error e, s, t, n, g, now⟩).body.ghl_contact_id = none) ∧
    (reqPM req.body ≠ "stripe" →
      (!truthy cfg.TABBY_SECRET_KEY || !truthy cfg.TABBY_MERCHANT_CODE) = false →
      t = .ok td → td.status = some "created" → optTruthy (tdWebUrl td) = true →
      (handler2 cfg req ⟨.error e, s, t, n, g, now⟩).status = 200 ∧
      (handler2 cfg req ⟨.error e, s, t, n, g, now⟩).body.success = some true ∧
      (handler2 cfg req ⟨.error e, s, t, n, g, now⟩).body.redirect_url = tdWebUrl td ∧
      (handler2 cfg req ⟨.error e, s, t, n, g, now⟩).body.ghl_contact_id = none) := by
  refine ⟨rfl, ?_, ?_⟩
  · intro hpm hsk hes
    subst hes
    rw [handler2_post _ _ _ hm hvf he, if_pos hpm]
    unfold stripeBranch
    simp [hsk, ghlContactIdOf]
  · intro hpm hcfg het hst hw
    subst het
    rw [handler2_post _ _ _ hm hvf he, if_neg hpm]
    unfold tabbyBranch
    simp [hcfg, hst, hw, ghlContactIdOf]

/-- Witness for C7 at concrete worlds: failing note/tag calls leave the
result unchanged, and a failing upsert still yields `success: true`
with a null contact id on both provider paths. -/
theorem crm_failures_isolated_witness :
    handler2 cfgAll (reqOf bodyTabby)
        { wBase with ghlNote := Except.error "boom", ghlTag := Except.error "boom" } =
      handler2 cfgAll (reqOf bodyTabby) wBase ∧
    (handler2 cfgAll (reqOf bodyStripe) wUpsertFail).body.success = some true ∧
    (handler2 cfgAll (reqOf bodyStripe) wUpsertFail).body.ghl_contact_id = none ∧
    (handler2 cfgAll (reqOf bodyTabby) wUpsertFail).body.success = some true ∧
    (handler2 cfgAll (reqOf bodyTabby) wUpsertFail).body.ghl_contact_id = none := by
  have hA := crm_failures_isolated cfgAll (reqOf bodyTabby) wBase.ghlUpsert
    wBase.stripeCreate wBase.tabbyCreate (Except.error "boom") (Except.ok ())
    (Except.error "boom") (Except.ok ()) wBase.now "ECONNRESET"
    ⟨"cs_1", "https://stripe/s"⟩ tdCreatedUrl rfl (by decide) (by decide)
  have hB := crm_failures_isolated cfgAll (reqOf bodyStripe) wBase.ghlUpsert
    wBase.stripeCreate wBase.tabbyCreate wBase.ghlNote wBase.ghlNote
    wBase.ghlTag wBase.ghlTag wBase.now
    "ECONNRESET" ⟨"cs_1", "https://stripe/s"⟩ tdCreatedUrl rfl (by decide) (by decide)
  have hC := crm_failures_isolated cfgAll (reqOf bodyTabby) wBase.ghlUpsert
    wBase.stripeCreate wBase.tabbyCreate wBase.ghlNote wBase.ghlNote
    wBase.ghlTag wBase.ghlTag wBase.now
    "ECONNRESET" ⟨"cs_1", "https://stripe/s"⟩ tdCreatedUrl rfl (by decide) (by decide)
  have hBs := hB.2.1 (by decide) (by decide) rfl
  have hCs := hC.2.2 (by decide) (by decide) rfl rfl (by decide)
  exact ⟨hA.1, hBs.2.1, hBs.2.2.2, hCs.2.1, hCs.2.2.2⟩

/-- STEP 1 never records a note call. -/
theorem any_isNote_ghlUpsertCalls (cfg : Config) :
    (ghlUpsertCalls cfg).any Call.isNote = false := by
  unfold ghlUpsertCalls
  split <;> rfl

/-- STEP 1 never records a Stripe call. -/
theorem any_isStripe_ghlUpsertCalls (cfg : Config) :
    (ghlUpsertCalls cfg).any Call.isStripe = false := by
  unfold ghlUpsertCalls
  split <;> rfl

/-- Unfolding of `tabbyCreatedOk` into an existential. -/
theorem tabbyCreatedOk_iff (e : Except String TabbyData) :
    tabbyCreatedOk e = true ↔ ∃ td, e = Except.ok td ∧ td.status = some "created" := by
  cases e <;> simp [tabbyCreatedOk]

/-- An `Except` is `ok` exactly when its `toOption` is `some`. -/
theorem except_isOk_iff {α β : Type} (e : Except α β) :
    e.toOption.isSome = true ↔ ∃ b, e = Except.ok b := by
  cases e <;> simp [Except.toOption]

/-- The Stripe branch posts a note exactly when the key is set, the
session creation succeeded, and a CRM contact id with a GHL key is at
hand. -/
theorem stripeBranch_note_eq (cfg : Config) (b : Body) (w : World)
    (gci : Option String) (calls1 : List Call)
    (h1 : calls1.any Call.isNote = false) :
    (stripeBranch cfg b w gci calls1).calls.any Call.isNote =
      (truthy cfg.STRIPE_SECRET_KEY && w.stripeCreate.toOption.isSome &&
        (optTruthy gci && truthy cfg.GHL_API_KEY)) := by
  unfold stripeBranch
  by_cases hsk : truthy cfg.STRIPE_SECRET_KEY = true
  · cases hws : w.stripeCreate with
    | error msg => simp [hsk, hws, List.any_append, h1, Call.isNote, Except.toOption]
    | ok sess =>
      by_cases hcg : (optTruthy gci && truthy cfg.GHL_API_KEY) = true <;>
        simp [hsk, hws, hcg, List.any_append, h1, Call.isNote, Except.toOption]
  · have hsk' : truthy cfg.STRIPE_SECRET_KEY = false := by simpa using hsk
    simp [hsk', h1]

/-- The Tabby branch posts a note exactly when Tabby is configured, the
call returned `status: "created"` (regardless of any `web_url`), and a
CRM contact id with a GHL key is at hand. -/
theorem tabbyBranch_note_eq (cfg : Config) (b : Body) (w : World)
    (gci : Option String) (calls1 : List Call)
    (h1 : calls1.any Call.isNote = false) :
    (tabbyBranch cfg b w gci calls1).calls.any Call.isNote =
      (!(!truthy cfg.TABBY_SECRET_KEY || !truthy cfg.TABBY_MERCHANT_CODE) &&
        tabbyCreatedOk w.tabbyCreate &&
        (optTruthy gci && truthy cfg.GHL_API_KEY)) := by
  unfold tabbyBranch
  by_cases hcfg : (!truthy cfg.TABBY_SECRET_KEY || !truthy cfg.TABBY_MERCHANT_CODE) = true
  · simp [hcfg, h1]
  · have hcfg' : (!truthy cfg.TABBY_SECRET_KEY || !truthy cfg.TABBY_MERCHANT_CODE) = false := by
      simpa using hcfg
    cases hwt : w.tabbyCreate with
    | error msg => simp [hcfg', hwt, List.any_append, h1, Call.isNote, tabbyCreatedOk]
    | ok td =>
      by_cases hstc : td.status = some "created"
      · by_cases hcg : (optTruthy gci && truthy cfg.GHL_API_KEY) = true <;>
          · simp only [hcfg', hwt, hstc, Bool.false_eq_true, if_false, if_pos rfl,
              tabbyCreatedOk, apply_ite HttpResult.calls, ite_self]
            simp [hcg, List.any_append, h1, Call.isNote]
      · by_cases hstr : td.status = some "rejected"
        · by_cases hcg : (optTruthy gci && truthy cfg.GHL_API_KEY) = true <;>
            simp [hcfg', hwt, hstc, hstr, hcg, List.any_append, h1, Call.isNote,
              tabbyCreatedOk]
        · simp [hcfg', hwt, hstc, hstr, List.any_append, h1, Call.isNote, tabbyCreatedOk]

/-- Counterexample to C9: a Tabby `created` response without a web URL
yields a `success: false` response while the CRM note has nevertheless
been posted (the note precedes the `web_url` check). -/
theorem note_posted_despite_failure_response :
    (handler2 cfgAll (reqOf bodyTabby) (wTabby (Except.ok tdCreatedNoUrl))).body.success =
      some false ∧
    (handler2 cfgAll (reqOf bodyTabby) (wTabby (Except.ok tdCreatedNoUrl))).calls.any
      Call.isNote = true := by decide

/-- C9 (amended): the CRM note is posted exactly when a contact id was
obtained, the GHL key is set, and the provider session creation
succeeded — Stripe's create returned a session, or Tabby returned
`status: "created"`; in the latter case the note precedes the `web_url`
check, so it can be posted even when the final response carries
`success: false`. -/
theorem note_posted_after_session_creation (cfg : Config) (req : Request) (w : World)
    (hm : req.method = "POST") (hvf : validationFails req.body = false)
    (he : truthy (reqEmail req.body) = true) :
    (handler2 cfg req w).calls.any Call.isNote = true ↔
      (optTruthy (ghlContactIdOf cfg w) = true ∧ truthy cfg.GHL_API_KEY = true ∧
        ((reqPM req.body = "stripe" ∧ truthy cfg.STRIPE_SECRET_KEY = true ∧
           w.stripeCreate.toOption.isSome = true) ∨
         (reqPM req.body ≠ "stripe" ∧
           (!truthy cfg.TABBY_SECRET_KEY || !truthy cfg.TABBY_MERCHANT_CODE) = false ∧
           tabbyCreatedOk w.tabbyCreate = true))) := by
  rw [handler2_post cfg req w hm hvf he]
  by_cases hpm : reqPM req.body = "stripe"
  · rw [if_pos hpm,
      stripeBranch_note_eq cfg req.body w (ghlContactIdOf cfg w) (ghlUpsertCalls cfg)
        (any_isNote_ghlUpsertCalls cfg)]
    constructor
    · intro h
      simp only [Bool.and_eq_true] at h
      exact ⟨h.2.1, h.2.2, Or.inl ⟨hpm, h.1.1, h.1.2⟩⟩
    · rintro ⟨hgci, hkey, ⟨-, hsk, hok⟩ | ⟨hne, -, -⟩⟩
      · simp [hgci, hkey, hsk, hok]
      · exact absurd hpm hne
  · rw [if_neg hpm,
      tabbyBranch_note_eq cfg req.body w (ghlContactIdOf cfg w) (ghlUpsertCalls cfg)
        (any_isNote_ghlUpsertCalls cfg)]
    constructor
    · intro h
      simp only [Bool.and_eq_true, Bool.not_eq_true'] at h
      exact ⟨h.2.1, h.2.2, Or.inr ⟨hpm, h.1.1, h.1.2⟩⟩
    · rintro ⟨hgci, hkey, ⟨hpm2, -, -⟩ | ⟨-, hcfg, hok⟩⟩
      · exact absurd hpm2 hpm
      · simp [hgci, hkey, hcfg, hok]

/-- Witness for C9's amended theorem: the note is posted on a `created`
response with no web URL. -/
theorem note_posted_after_session_creation_witness :
    (handler2 cfgAll (reqOf bodyTabby) (wTabby (Except.ok tdCreatedNoUrl))).calls.any
      Call.isNote = true :=
  (note_posted_after_session_creation cfgAll (reqOf bodyTabby)
      (wTabby (Except.ok tdCreatedNoUrl)) rfl (by decide) (by decide)).mpr
    ⟨by decide, by decide, Or.inr ⟨by decide, by decide, by decide⟩⟩

/-- The Tabby branch never records a Stripe call. -/
theorem tabbyBranch_no_stripe (cfg : Config) (b : Body) (w : World)
    (gci : Option String) (calls1 : List Call)
    (h1 : calls1.any Call.isStripe = false) :
    (tabbyBranch cfg b w gci calls1).calls.any Call.isStripe = false := by
  unfold tabbyBranch
  repeat' split
  all_goals simp [List.any_append, h1, Call.isStripe, apply_ite HttpResult.calls]

/-- The Tabby branch makes the Tabby call whenever the keys are set. -/
theorem tabbyBranch_makes_tabby_call (cfg : Config) (b : Body) (w : World)
    (gci : Option String) (calls1 : List Call)
    (hcfg : (!truthy cfg.TABBY_SECRET_KEY || !truthy cfg.TABBY_MERCHANT_CODE) = false) :
    Call.tabbyCreate ∈ (tabbyBranch cfg b w gci calls1).calls := by
  unfold tabbyBranch
  simp only [hcfg, Bool.false_eq_true, if_false]
  repeat' split
  all_goals simp [apply_ite HttpResult.calls]

/-- C10: dispatch is decided solely by exact string equality with
`"stripe"`: any other `payment_method` (unrecognized values, different
case, or the field absent) takes the Tabby path — no Stripe call is
recorded, the Tabby call is made when the Tabby keys are configured,
and otherwise the Tabby config error is returned. -/
theorem dispatch_by_exact_stripe_string (cfg : Config) (req : Request) (w : World)
    (hm : req.method = "POST") (hvf : validationFails req.body = false)
    (he : truthy (reqEmail req.body) = true) (hpm : reqPM req.body ≠ "stripe") :
    (handler2 cfg req w).calls.any Call.isStripe = false ∧
    ((!truthy cfg.TABBY_SECRET_KEY || !truthy cfg.TABBY_MERCHANT_CODE) = false →
      Call.tabbyCreate ∈ (handler2 cfg req w).calls) ∧
    ((!truthy cfg.TABBY_SECRET_KEY || !truthy cfg.TABBY_MERCHANT_CODE) = true →
      (handler2 cfg req w).status = 500 ∧
      (handler2 cfg req w).body.error = some "Tabby is not configured.") := by
  rw [handler2_post cfg req w hm hvf he, if_neg hpm]
  refine ⟨tabbyBranch_no_stripe cfg req.body w (ghlContactIdOf cfg w) (ghlUpsertCalls cfg)
    (any_isStripe_ghlUpsertCalls cfg), ?_, ?_⟩
  · intro hcfg
    exact tabbyBranch_makes_tabby_call cfg req.body w (ghlContactIdOf cfg w)
      (ghlUpsertCalls cfg) hcfg
  · intro hcfg
    unfold tabbyBranch
    simp [hcfg]

/-- Witness for C10 at `payment_method = "STRIPE"`. -/
theorem dispatch_by_exact_stripe_string_witness :
    reqPM bodyPaypal = "STRIPE" ∧
    (handler2 cfgAll (reqOf bodyPaypal) wBase).calls.any Call.isStripe = false ∧
    Call.tabbyCreate ∈ (handler2 cfgAll (reqOf bodyPaypal) wBase).calls := by
  have h := dispatch_by_exact_stripe_string cfgAll (reqOf bodyPaypal) wBase rfl
    (by decide) (by decide) (by decide)
  exact ⟨by decide, h.1, h.2.1 (by decide)⟩
